import Mathlib

/-!
Verification development for the backend-communication layer of the
primo-poker desktop client (apps/poker-desktop/src-tauri/src/main.rs).

The Rust source is shallowly embedded as follows.

* The OS keyring (crate keyring, one fixed service/account slot) becomes an
  explicit Store value, an Option holding the single stored blob; reading,
  writing and deleting the slot are explicit state passing.  A stored blob is
  either a serde roundtrip of an AuthToken or unparseable garbage; this models
  serde_json.to_string / from_str without a JSON parser, keeping the roundtrip
  property serialize-then-parse = identity.
* Timestamps (chrono DateTime) are integers counting seconds; Utc.now() is an
  explicit parameter now, and Duration.hours 24 is 24 * 3600 seconds.
* Each reqwest call is modelled by its observable outcome: a SendOutcome is
  either a transport error string or an HttpResponse carrying the status
  success flag, the body read as text (none when unreadable) and the body
  decoded as JSON into the expected type.  The outcome is a parameter of the
  operation; the request the operation actually sent (its URL and the optional
  bearer token attached) is returned in a list, so that "issues zero network
  requests" is the list being empty.  Request bodies are not modelled: no claim
  concerns them.
* create_http_client only installs constant headers and timeouts; it is
  modelled as always succeeding and the constructed client carries no state.
* Fallible Rust functions returning Result<T, String> become
  Except String T; functions that touch the keyring also return the new Store.
-/

set_option autoImplicit false

namespace PrimoPoker

/-- Token record persisted in the keyring, mirroring struct AuthToken with the
expiry timestamp as integer seconds. -/
structure AuthToken where
  access_token : String
  refresh_token : String
  expires_at : Int
deriving Repr, DecidableEq

/-- Keyring failure, mirroring keyring.Error as far as the code inspects it:
the only variant the code distinguishes is NoEntry (in logout); platform-level
failures of the OS secret store are outside the model. -/
inductive KeyringError where
  | noEntry
deriving Repr, DecidableEq

/-- Display text of a keyring error, standing for the Display impl used by the
format! calls in the source. -/
def keyringErrorMessage : KeyringError → String
  | .noEntry => "No matching entry found in secure storage"

/-- Content of the single keyring slot: a faithful serde serialization of an
AuthToken, or an unparseable blob. -/
inductive Blob where
  | token (t : AuthToken)
  | garbage (s : String)
deriving Repr, DecidableEq

/-- State of the keyring slot addressed by the fixed pair
(service primo-poker, account auth-token). -/
abbrev Store := Option Blob

/-- Entry.get_password: yields the stored blob, or NoEntry when absent. -/
def get_password (s : Store) : Except KeyringError Blob :=
  match s with
  | some b => .ok b
  | none => .error .noEntry

/-- Entry.set_password: overwrites the slot; never fails in the model. -/
def set_password (b : Blob) (_s : Store) : Except KeyringError Unit × Store :=
  (.ok (), some b)

/-- Entry.delete_password: clears the slot, failing with NoEntry when the slot
was already empty. -/
def delete_password (s : Store) : Except KeyringError Unit × Store :=
  match s with
  | some _ => (.ok (), none)
  | none => (.error .noEntry, none)

/-- serde_json.from_str for AuthToken: succeeds exactly on a stored
serialization of a token, mirroring the map_err message prefix. -/
def parse_auth_token : Blob → Except String AuthToken
  | .token t => .ok t
  | .garbage _ => .error "Failed to parse token: invalid JSON"

/-- store_auth_token_secure: serializes the token and writes it to the slot. -/
def store_auth_token_secure (token : AuthToken) (s : Store) :
    Except String Unit × Store :=
  match set_password (Blob.token token) s with
  | (.ok _, s2) => (.ok (), s2)
  | (.error e, s2) => (.error ("Failed to store token: " ++ keyringErrorMessage e), s2)

/-- get_auth_token: reads the slot, parses the token, and applies the expiry
policy; an expired token is lazily evicted (delete, result none), an absent
entry is reported as none, and a parse failure propagates as an error. -/
def get_auth_token (now : Int) (s : Store) :
    Except String (Option AuthToken) × Store :=
  match get_password s with
  | .ok token_json =>
    match parse_auth_token token_json with
    | .ok token =>
      if token.expires_at > now then
        (.ok (some token), s)
      else
        (.ok none, (delete_password s).2)
    | .error e => (.error e, s)
  | .error _ => (.ok none, s)

/-- logout: deletes the stored credential, treating NoEntry as success
(already logged out). -/
def logout (s : Store) : Except String Unit × Store :=
  match delete_password s with
  | (.ok _, s2) => (.ok (), s2)
  | (.error .noEntry, s2) => (.ok (), s2)

/-- get_token_from_keyring: reads and parses the slot and returns the access
token.  No expiry check and no eviction happen on this path. -/
def get_token_from_keyring (s : Store) : Except String String :=
  match get_password s with
  | .error e => .error ("Failed to get token: " ++ keyringErrorMessage e)
  | .ok token_json =>
    match parse_auth_token token_json with
    | .ok token => .ok token.access_token
    | .error e => .error e

/-- Session user record, mirroring struct User. -/
structure User where
  id : String
  username : String
  email : String
  name : Option String
deriving Repr, DecidableEq

/-- Token pair of the login payload, mirroring struct TokenResponse. -/
structure TokenResponse where
  access_token : String
  refresh_token : String
deriving Repr, DecidableEq

/-- Flat login payload, mirroring struct LoginResponse. -/
structure LoginResponse where
  user : User
  tokens : TokenResponse
  message : String
deriving Repr, DecidableEq

/-- Backend-reported error of the envelope, mirroring struct ApiError. -/
structure ApiError where
  message : String
deriving Repr, DecidableEq

/-- Uniform response envelope of the table endpoints, mirroring
struct ApiResponse with both payload fields optional. -/
structure ApiResponse (α : Type) where
  success : Bool
  data : Option α
  error : Option ApiError
deriving Repr, DecidableEq

/-- Table creation input, mirroring struct TableConfig. -/
structure TableConfig where
  name : String
  game_type : String
  betting_structure : String
  game_format : String
  max_players : Nat
  min_buy_in : Nat
  max_buy_in : Nat
  small_blind : Nat
  big_blind : Nat
  ante : Nat
  time_bank : Nat
  is_private : Bool
deriving Repr, DecidableEq

/-- Blind sizes of a live table, mirroring struct BlindsConfig. -/
structure BlindsConfig where
  small : Nat
  big : Nat
deriving Repr, DecidableEq

/-- Optional per-table configuration echo, mirroring
struct TableConfigResponse. -/
structure TableConfigResponse where
  max_players : Nat
  small_blind : Nat
  big_blind : Nat
deriving Repr, DecidableEq

/-- Live table record returned by the backend, mirroring struct Table. -/
structure Table where
  id : String
  name : String
  player_count : Nat
  max_players : Nat
  game_phase : String
  pot : Nat
  blinds : BlindsConfig
  config : Option TableConfigResponse
deriving Repr, DecidableEq

/-- Result of the connectivity probe, mirroring struct ConnectionStatus. -/
structure ConnectionStatus where
  connected : Bool
  backend_url : String
  latency_ms : Option Nat
deriving Repr, DecidableEq

/-- Untyped JSON value, standing for serde_json.Value. -/
inductive JsonValue where
  | null
  | bool (b : Bool)
  | num (n : Int)
  | str (s : String)
  | arr (elems : List JsonValue)
  | obj (fields : List (String × JsonValue))

/-- Observable content of a received HTTP response: the status success flag
(status().is_success()), the body read as text (none when unreadable, for the
unwrap_or_else fallbacks), and the body decoded as JSON into the expected
type (the json().await call). -/
structure HttpResponse (α : Type) where
  is_success : Bool
  body_text : Option String
  json : Except String α

/-- Record of one request the operation actually sent: its URL and the bearer
token attached as an Authorization header, when any. -/
structure SentRequest where
  url : String
  auth : Option String
deriving Repr, DecidableEq

/-- Outcome of send(): a transport error string or a received response. -/
abbrev SendOutcome (α : Type) := Except String (HttpResponse α)

/-- check_backend_connection: probes the health endpoint; a transport failure
degrades to a disconnected status instead of an error.  The elapsed
milliseconds measurement is an explicit parameter. -/
def check_backend_connection (api_url : String) (outcome : SendOutcome Unit)
    (elapsed_ms : Nat) : Except String ConnectionStatus × List SentRequest :=
  let req : SentRequest := { url := api_url ++ "/api/health", auth := none }
  match outcome with
  | .ok response =>
    (.ok { connected := response.is_success, backend_url := api_url,
           latency_ms := some elapsed_ms }, [req])
  | .error _ =>
    (.ok { connected := false, backend_url := api_url, latency_ms := none }, [req])

/-- login: posts the credentials, and on a success status parses the flat
login payload, builds an AuthToken expiring 24 hours after now, stores it,
and returns the payload; on a non-success status it fails with the body text.
The request body (email and password) is not modelled. -/
def login (api_url : String) (_email _password : String) (now : Int) (s : Store)
    (outcome : SendOutcome LoginResponse) :
    Except String LoginResponse × Store × List SentRequest :=
  let req : SentRequest := { url := api_url ++ "/api/auth/login", auth := none }
  match outcome with
  | .error e => (.error ("Network error: " ++ e), s, [req])
  | .ok response =>
    if response.is_success then
      match response.json with
      | .error e => (.error ("Failed to parse response: " ++ e), s, [req])
      | .ok login_response =>
        let auth_token : AuthToken :=
          { access_token := login_response.tokens.access_token,
            refresh_token := login_response.tokens.refresh_token,
            expires_at := now + 24 * 3600 }
        match store_auth_token_secure auth_token s with
        | (.ok _, s2) =>
          (.ok { user := login_response.user, tokens := login_response.tokens,
                 message := login_response.message }, s2, [req])
        | (.error e, s2) => (.error e, s2, [req])
    else
      (.error ("Login failed: " ++ response.body_text.getD "Unknown error"), s, [req])

/-- Fixed placeholder user built by get_user.  The source constructs this
record without the mandatory username field and assigns a plain string to the
optional name field, so the record literal does not type-check in Rust; the
value here follows the evident intent of the three assigned constants, with
username left empty. -/
def mockUser : User :=
  { id := "user123", username := "", email := "test@example.com",
    name := some "Test User" }

/-- get_user: returns the fixed placeholder user whenever the keyring read and
parse succeed, none otherwise; it never returns an error. -/
def get_user (s : Store) : Except String (Option User) :=
  match get_token_from_keyring s with
  | .ok _ => .ok (some mockUser)
  | .error _ => .ok none

/-- get_tables: reads the token when available (degrading to an
unauthenticated request when not), sends, fails with a fixed message on a
non-success status, and otherwise decodes the envelope, defaulting absent
data to the empty list. -/
def get_tables (api_url : String) (s : Store)
    (outcome : SendOutcome (ApiResponse (List Table))) :
    Except String (List Table) × List SentRequest :=
  let token : Option String :=
    match get_token_from_keyring s with
    | .ok token => some token
    | .error _ => none
  let req : SentRequest := { url := api_url ++ "/api/tables", auth := token }
  match outcome with
  | .error e => (.error e, [req])
  | .ok response =>
    if !response.is_success then
      (.error "Failed to fetch tables", [req])
    else
      match response.json with
      | .error e => (.error e, [req])
      | .ok api_response =>
        if api_response.success then
          (.ok (api_response.data.getD []), [req])
        else
          (.error ((api_response.error.map (fun e => e.message)).getD
            "Unknown error"), [req])

/-- create_table: requires a token from the keyring (failing as not
authenticated with no request sent otherwise), sends, fails with the body
text on a non-success status, and otherwise decodes the envelope, treating
absent data on a success envelope as an error. -/
def create_table (api_url : String) (_config : TableConfig) (s : Store)
    (outcome : SendOutcome (ApiResponse Table)) :
    Except String Table × List SentRequest :=
  match get_token_from_keyring s with
  | .error _ => (.error "Not authenticated", [])
  | .ok token =>
    let req : SentRequest := { url := api_url ++ "/api/tables", auth := some token }
    match outcome with
    | .error e => (.error e, [req])
    | .ok response =>
      if !response.is_success then
        (.error ("Failed to create table: " ++ response.body_text.getD
          "Unknown error"), [req])
      else
        match response.json with
        | .error e => (.error e, [req])
        | .ok api_response =>
          if api_response.success then
            match api_response.data with
            | some table => (.ok table, [req])
            | none => (.error "No table data returned", [req])
          else
            (.error ((api_response.error.map (fun e => e.message)).getD
              "Unknown error"), [req])

/-- join_table: requires a token from the keyring (failing as not
authenticated with no request sent otherwise), sends, fails with the body
text on a non-success status, and otherwise decodes the envelope, defaulting
absent data to the empty JSON object. -/
def join_table (api_url : String) (table_id : String) (_buy_in : Nat) (s : Store)
    (outcome : SendOutcome (ApiResponse JsonValue)) :
    Except String JsonValue × List SentRequest :=
  match get_token_from_keyring s with
  | .error _ => (.error "Not authenticated", [])
  | .ok token =>
    let req : SentRequest :=
      { url := api_url ++ "/api/tables/" ++ table_id ++ "/join", auth := some token }
    match outcome with
    | .error e => (.error e, [req])
    | .ok response =>
      if !response.is_success then
        (.error ("Failed to join table: " ++ response.body_text.getD
          "Unknown error"), [req])
      else
        match response.json with
        | .error e => (.error e, [req])
        | .ok api_response =>
          if api_response.success then
            (.ok (api_response.data.getD (JsonValue.obj [])), [req])
          else
            (.error ((api_response.error.map (fun e => e.message)).getD
              "Unknown error"), [req])

/-! Concrete fixtures used by counterexamples and witnesses. -/

/-- Concrete table configuration used in counterexamples and witnesses. -/
def cfg0 : TableConfig :=
  { name := "demo", game_type := "texas_holdem", betting_structure := "no_limit",
    game_format := "cash", max_players := 9, min_buy_in := 100,
    max_buy_in := 1000, small_blind := 1, big_blind := 2, ante := 0,
    time_bank := 30, is_private := false }

/-- Concrete table record used in counterexamples and witnesses. -/
def table0 : Table :=
  { id := "tab1", name := "demo", player_count := 0, max_players := 9,
    game_phase := "waiting", pot := 0, blinds := { small := 1, big := 2 },
    config := none }

/-- Concrete token, already expired at any positive time. -/
def tok0 : AuthToken :=
  { access_token := "acc", refresh_token := "ref", expires_at := 0 }

/-- Executable check that the pattern occurs as a contiguous substring of the
second list; used to state that an error message does not carry a body. -/
def hasSubstring (pat : List Char) : List Char → Bool
  | [] => pat.isEmpty
  | c :: rest => pat.isPrefixOf (c :: rest) || hasSubstring pat rest

/-- C1 counterexample: the keyring holds a credential whose expiry (time 0) is
not strictly after the current time (time 5), so by the claim create_table
should fail as not authenticated with zero requests; instead the code never
consults the clock on this path: it sends one request carrying the stale
bearer token and returns the created table. -/
theorem c1_create_table_expired_token_counterexample :
    tok0.expires_at ≤ (5 : Int) ∧
    (create_table "https://api.example" cfg0 (some (Blob.token tok0))
        (.ok { is_success := true, body_text := none,
               json := .ok { success := true, data := some table0, error := none } })).2 =
      [{ url := "https://api.example" ++ "/api/tables", auth := some "acc" }] ∧
    (create_table "https://api.example" cfg0 (some (Blob.token tok0))
        (.ok { is_success := true, body_text := none,
               json := .ok { success := true, data := some table0, error := none } })).1 =
      .ok table0 := by
  refine ⟨by decide, rfl, rfl⟩

/-- C1 amended: create_table and join_table fail as not authenticated with
zero requests sent exactly when the keyring read yields no parseable
credential (no entry, or an unparseable blob); the stored expiry is not
consulted on this path. -/
theorem c1_ops_not_authenticated (api_url table_id : String) (buy_in : Nat)
    (config : TableConfig) (s : Store) (oc : SendOutcome (ApiResponse Table))
    (oj : SendOutcome (ApiResponse JsonValue))
    (h : ∃ e, get_token_from_keyring s = .error e) :
    create_table api_url config s oc = (.error "Not authenticated", []) ∧
    join_table api_url table_id buy_in s oj = (.error "Not authenticated", []) := by
  obtain ⟨e, he⟩ := h
  constructor
  · unfold create_table
    rw [he]
  · unfold join_table
    rw [he]

/-- Witness for the C1 amended theorem at the empty store. -/
theorem c1_ops_not_authenticated_witness :
    create_table "https://api.example" cfg0 none
        (.ok { is_success := true, body_text := none,
               json := .ok { success := true, data := some table0, error := none } }) =
      (.error "Not authenticated", []) ∧
    join_table "https://api.example" "t1" 100 none (.error "connection refused") =
      (.error "Not authenticated", []) :=
  c1_ops_not_authenticated "https://api.example" "t1" 100 cfg0 none _ _
    ⟨"Failed to get token: " ++ keyringErrorMessage KeyringError.noEntry, rfl⟩

/-- C2 counterexample: on a success status with a success envelope whose data
field is absent, create_table does not return an empty or default result: it
fails with the no-table-data error. -/
theorem c2_create_table_missing_data_counterexample :
    (create_table "https://api.example" cfg0 (some (Blob.token tok0))
        (.ok { is_success := true, body_text := none,
               json := .ok { success := true, data := none, error := none } })).1 =
      .error "No table data returned" := rfl

/-- C2 amended: on a success status with a success envelope whose data field
is absent, get_tables returns the empty list and join_table returns the empty
JSON object, without error; create_table, whose result is a single table with
no default, instead fails with the no-table-data error. -/
theorem c2_success_envelope_missing_data (api_url table_id : String)
    (buy_in : Nat) (config : TableConfig) (t : AuthToken)
    (b1 b2 b3 : Option String) (e1 e2 e3 : Option ApiError) :
    (get_tables api_url (some (Blob.token t))
        (.ok { is_success := true, body_text := b1,
               json := .ok { success := true, data := none, error := e1 } })).1 =
      .ok [] ∧
    (join_table api_url table_id buy_in (some (Blob.token t))
        (.ok { is_success := true, body_text := b2,
               json := .ok { success := true, data := none, error := e2 } })).1 =
      .ok (JsonValue.obj []) ∧
    (create_table api_url config (some (Blob.token t))
        (.ok { is_success := true, body_text := b3,
               json := .ok { success := true, data := none, error := e3 } })).1 =
      .error "No table data returned" :=
  ⟨rfl, rfl, rfl⟩

/-- C3 counterexample: on a non-success status, get_tables fails with the same
fixed message for two distinct readable bodies, so the message does not carry
the raw body text; the third conjunct checks that the fixed message does not
even contain the first body as a substring. -/
theorem c3_get_tables_fixed_message_counterexample :
    (get_tables "https://api.example" (some (Blob.token tok0))
        (.ok { is_success := false, body_text := some "BODYA",
               json := .error "never parsed" })).1 =
      .error "Failed to fetch tables" ∧
    (get_tables "https://api.example" (some (Blob.token tok0))
        (.ok { is_success := false, body_text := some "BODYB",
               json := .error "never parsed" })).1 =
      .error "Failed to fetch tables" ∧
    hasSubstring "BODYA".data "Failed to fetch tables".data = false := by
  refine ⟨rfl, rfl, by decide⟩

/-- C3 amended: on a non-success status, create_table and join_table fail
with a message carrying the raw body text (or the unknown-error placeholder
when the body is unreadable) and get_tables fails with the fixed message
without reading the body; on this path none of the three parses the envelope
(the decoded-json field of the response is universally quantified and never
inspected). -/
theorem c3_non_success_status_failure (api_url table_id : String)
    (buy_in : Nat) (config : TableConfig) (t : AuthToken) (b : Option String)
    (j1 : Except String (ApiResponse (List Table)))
    (j2 : Except String (ApiResponse Table))
    (j3 : Except String (ApiResponse JsonValue)) :
    (get_tables api_url (some (Blob.token t))
        (.ok { is_success := false, body_text := b, json := j1 })).1 =
      .error "Failed to fetch tables" ∧
    (create_table api_url config (some (Blob.token t))
        (.ok { is_success := false, body_text := b, json := j2 })).1 =
      .error ("Failed to create table: " ++ b.getD "Unknown error") ∧
    (join_table api_url table_id buy_in (some (Blob.token t))
        (.ok { is_success := false, body_text := b, json := j3 })).1 =
      .error ("Failed to join table: " ++ b.getD "Unknown error") :=
  ⟨rfl, rfl, rfl⟩

/-- C4: for every stored credential, get_auth_token returns it unchanged (as
some, store untouched) when its expiry is strictly after the current time,
and otherwise returns none with the store entry deleted as a side effect of
the read. -/
theorem c4_get_auth_token_expiry_policy (now : Int) (t : AuthToken) :
    get_auth_token now (some (Blob.token t)) =
      if t.expires_at > now then (.ok (some t), some (Blob.token t))
      else (.ok none, none) := by
  by_cases h : t.expires_at > now <;>
    simp [get_auth_token, get_password, parse_auth_token, delete_password, h]

/-- C5: the store after login is written if and only if the HTTP status is a
success code and the body parses as the login payload (the model store write
always succeeds); the written credential expires exactly 24 hours (in
seconds) after the issuance time now, and on a transport error, a non-success
status, or a parse failure the store is unchanged. -/
theorem c5_login_store_write (api_url email password : String) (now : Int)
    (s : Store) (outcome : SendOutcome LoginResponse) :
    (login api_url email password now s outcome).2.1 =
      match outcome with
      | .error _ => s
      | .ok r =>
        if r.is_success then
          match r.json with
          | .ok lr => some (Blob.token
              { access_token := lr.tokens.access_token,
                refresh_token := lr.tokens.refresh_token,
                expires_at := now + 24 * 3600 })
          | .error _ => s
        else s := by
  cases outcome with
  | error e => rfl
  | ok r =>
    cases hs : r.is_success <;>
      cases hj : r.json <;>
        simp [login, store_auth_token_secure, set_password, hs, hj]

/-- C6: logout on a store holding no credential entry is a no-op success, and
logout right after any logout (so on an empty slot) again succeeds: deleting
an absent entry is an idempotent no-op success. -/
theorem c6_logout_idempotent_success :
    logout (none : Store) = (.ok (), none) ∧
    ∀ s : Store, logout (logout s).2 = (.ok (), none) := by
  refine ⟨rfl, ?_⟩
  intro s
  cases s <;> rfl

/-- C7: get_tables with no stored credential still sends exactly one request,
without a bearer token, and returns the table list when the response has a
success status and a success envelope carrying the list. -/
theorem c7_get_tables_unauthenticated (api_url : String)
    (r : HttpResponse (ApiResponse (List Table))) (tables : List Table)
    (err : Option ApiError) (hs : r.is_success = true)
    (hj : r.json = .ok { success := true, data := some tables, error := err }) :
    get_tables api_url none (.ok r) =
      (.ok tables, [{ url := api_url ++ "/api/tables", auth := none }]) := by
  simp [get_tables, get_token_from_keyring, get_password, hs, hj]

/-- Witness for C7 at a concrete unauthenticated run returning one table. -/
theorem c7_get_tables_unauthenticated_witness :
    get_tables "https://api.example" none
        (.ok { is_success := true, body_text := none,
               json := .ok { success := true, data := some [table0], error := none } }) =
      (.ok [table0],
       [{ url := "https://api.example" ++ "/api/tables", auth := none }]) :=
  c7_get_tables_unauthenticated "https://api.example"
    { is_success := true, body_text := none,
      json := .ok { success := true, data := some [table0], error := none } }
    [table0] none rfl rfl

/-- C8: on a success status, each of the three table operations maps a
failure envelope with an error message to exactly that message and a failure
envelope with the error field absent to the generic unknown-error fallback,
never to a parse failure. -/
theorem c8_failure_envelope_messages (api_url table_id : String) (buy_in : Nat)
    (config : TableConfig) (t : AuthToken) (m : String) (b : Option String)
    (d1 : Option (List Table)) (d2 : Option Table) (d3 : Option JsonValue) :
    ((get_tables api_url (some (Blob.token t))
        (.ok { is_success := true, body_text := b,
               json := .ok { success := false, data := d1,
                             error := some { message := m } } })).1 =
      .error m ∧
     (get_tables api_url (some (Blob.token t))
        (.ok { is_success := true, body_text := b,
               json := .ok { success := false, data := d1, error := none } })).1 =
      .error "Unknown error") ∧
    ((create_table api_url config (some (Blob.token t))
        (.ok { is_success := true, body_text := b,
               json := .ok { success := false, data := d2,
                             error := some { message := m } } })).1 =
      .error m ∧
     (create_table api_url config (some (Blob.token t))
        (.ok { is_success := true, body_text := b,
               json := .ok { success := false, data := d2, error := none } })).1 =
      .error "Unknown error") ∧
    ((join_table api_url table_id buy_in (some (Blob.token t))
        (.ok { is_success := true, body_text := b,
               json := .ok { success := false, data := d3,
                             error := some { message := m } } })).1 =
      .error m ∧
     (join_table api_url table_id buy_in (some (Blob.token t))
        (.ok { is_success := true, body_text := b,
               json := .ok { success := false, data := d3, error := none } })).1 =
      .error "Unknown error") :=
  ⟨⟨rfl, rfl⟩, ⟨rfl, rfl⟩, ⟨rfl, rfl⟩⟩

/-- C9: check_backend_connection turns any transport failure into a normal
disconnected result (connected false, the given URL echoed, latency absent),
and turns any received response into a normal result whose connected flag is
the status success flag, with the measured latency present; neither path is
an error. -/
theorem c9_check_connection_never_errors (api_url e : String)
    (r : HttpResponse Unit) (ms : Nat) :
    check_backend_connection api_url (.error e) ms =
      (.ok { connected := false, backend_url := api_url, latency_ms := none },
       [{ url := api_url ++ "/api/health", auth := none }]) ∧
    check_backend_connection api_url (.ok r) ms =
      (.ok { connected := r.is_success, backend_url := api_url,
             latency_ms := some ms },
       [{ url := api_url ++ "/api/health", auth := none }]) :=
  ⟨rfl, rfl⟩

/-- C10: get_user never returns an error: for every parseable stored
credential, expired or not, it returns the same fixed placeholder user
(constant id, email and display name, independent of the token contents),
and it returns none when the entry is absent or unreadable. -/
theorem c10_get_user_placeholder (t : AuthToken) (g : String) :
    get_user (some (Blob.token t)) = .ok (some mockUser) ∧
    get_user (some (Blob.garbage g)) = .ok none ∧
    get_user none = .ok none ∧
    mockUser.id = "user123" ∧
    mockUser.email = "test@example.com" ∧
    mockUser.name = some "Test User" :=
  ⟨rfl, rfl, rfl, rfl, rfl, rfl⟩

end PrimoPoker
